import Mathlib

/-!
Verification of the home-sentry presence-detection and escalation core.

The Go sources are shallowly embedded as executable Lean definitions:
  * `RetryConfig`, `retryFrom`, `RetryWithResult`, `Retry`
      — pkg/network retry.go (`Retry`, `RetryWithResult`);
  * `GetCurrentSSID` — pkg/network/network.go (Windows path);
  * `SentryStatus`, `SentryState`, `Settings`, `CancelShutdown`,
    `triggerShutdownWithCountdown`, `monitorCycle`, `monitorRun`
      — pkg/sentry/sentry.go and pkg/config/config.go.

Go machine integers are modelled as `Int`/`Nat` (grace counts only ever grow
by one from zero, so `Nat` is exact); `time.Duration` values and the float64
backoff multiplier are modelled as exact rationals; a Go `(T, error)` pair is
modelled as `T × Option E`.  Sleeping and timers are modelled by recording
the requested sleep durations; the countdown's select race is modelled by
the time at which the competing cancel request arrives.
-/

namespace HomeSentry

/-! ### Retry executor (pkg/network retry.go) -/

/-- Go `RetryConfig` from retry.go: `MaxAttempts int`, `Delay time.Duration`,
`Multiplier float64`.  The duration and multiplier are modelled as exact
rationals. -/
structure RetryConfig where
  maxAttempts : Int
  delay : ℚ
  multiplier : ℚ
deriving Repr, DecidableEq

/-- Go `DefaultRetryConfig()`: 3 attempts, 500 ms, multiplier 1.5. -/
def DefaultRetryConfig : RetryConfig :=
  ⟨3, 500, 3 / 2⟩

/-- Trace of one `RetryWithResult` run: the returned `(result, err)` pair,
how many times the operation was invoked, and the sleeps performed (in
order). -/
structure RetryOutcome (A E : Type) where
  result : A
  error : Option E
  invocations : Nat
  sleeps : List ℚ
deriving Repr, DecidableEq

/-- The `for attempt := ...` loop of `RetryWithResult`, entered at attempt
number `attempt` with `remaining` iterations still allowed and current
`delay`.  `zero` is the Go zero value of the result type (the loop body
never runs when `remaining = 0`, and Go then returns the zero value and a
nil error). -/
def retryFrom {A E : Type} (f : Nat → A × Option E) (mult : ℚ) (zero : A) :
    Nat → Nat → ℚ → RetryOutcome A E
  | _, 0, _ => ⟨zero, none, 0, []⟩
  | attempt, 1, _ =>
      let r := f attempt
      ⟨r.1, r.2, 1, []⟩
  | attempt, n + 2, delay =>
      let r := f attempt
      match r.2 with
      | none => ⟨r.1, none, 1, []⟩
      | some _ =>
          let rest := retryFrom f mult zero (attempt + 1) (n + 1) (delay * mult)
          ⟨rest.result, rest.error, rest.invocations + 1, delay :: rest.sleeps⟩

/-- Go `RetryWithResult` from retry.go: run the operation up to
`config.MaxAttempts` times starting at attempt 1; the operation for attempt
`n` yields the pair `f n`. -/
def RetryWithResult {A E : Type} (config : RetryConfig) (f : Nat → A × Option E)
    (zero : A) : RetryOutcome A E :=
  retryFrom f config.multiplier zero 1 config.maxAttempts.toNat config.delay

/-- Go `Retry` from retry.go: the result-less variant, identical loop with only
the error tracked. -/
def Retry {E : Type} (config : RetryConfig) (f : Nat → Option E) : RetryOutcome Unit E :=
  retryFrom (fun n => ((), f n)) config.multiplier () 1 config.maxAttempts.toNat config.delay

/-! ### Presence detector network-name query (pkg/network/network.go) -/

/-- Go `GetCurrentSSID` (Windows path): wraps `getWindowsSSID` in
`RetryWithResult(DefaultRetryConfig())`, treating the raw values
`Disconnected` and `Unknown` as failures, and returns the sentinel
`Unknown` once retries are exhausted.  `raw n` is the value `getWindowsSSID`
produces on attempt `n`. -/
def GetCurrentSSID (raw : Nat → String) : String :=
  let out : RetryOutcome String Unit :=
    RetryWithResult DefaultRetryConfig
      (fun n =>
        (raw n, if raw n == "Disconnected" || raw n == "Unknown" then some () else none))
      ""
  match out.error with
  | some _ => "Unknown"
  | none => out.result

/-- The at-home test performed by the monitor loop (sentry.go line 177):
plain string equality between the current and the configured network name. -/
def onHomeNetworkCheck (ssid homeSSID : String) : Bool :=
  ssid == homeSSID

/-- Written from the spec sentence for the refinement claim about the
at-home test: equality **and** a non-empty configured name. -/
def specOnHomeNetwork (ssid homeSSID : String) : Bool :=
  ssid == homeSSID && homeSSID != ""

/-! ### Sentry data model (pkg/sentry/sentry.go, pkg/config/config.go) -/

/-- Go `SentryStatus` from sentry.go. -/
inductive SentryStatus
  | roaming
  | monitoring
  | gracePeriod
  | shutdownImminent
  | paused
  | waitingForPhone
deriving Repr, DecidableEq

/-- Go `DetectionType` from config.go. -/
inductive DetectionType
  | ip
  | mac
deriving Repr, DecidableEq

/-- The fields of `config.Settings` that the monitor loop and the countdown
read.  `GraceChecks` and `ShutdownDelay` are Go ints that config validation
confines to small positive ranges, embedded as `Nat`. -/
structure Settings where
  homeSSID : String
  phoneIP : String
  phoneMAC : String
  detectionType : DetectionType
  isPaused : Bool
  graceChecks : Nat
  shutdownDelay : Nat
  requirePIN : Bool
deriving Repr, DecidableEq

/-- Go `Settings.HasDeviceConfigured` from config.go. -/
def Settings.HasDeviceConfigured (s : Settings) : Bool :=
  match s.detectionType with
  | .mac => s.phoneMAC != ""
  | .ip => s.phoneIP != "" && s.phoneIP != "0.0.0.0"

/-- The mutable fields of `SentryManager` (sentry.go) that the claims are
about; the mutex and the cancel channel are modelled by the deterministic
event orderings fed to the functions below. -/
structure SentryState where
  status : SentryStatus
  graceCount : Nat
  phoneEverSeen : Bool
  shutdownPending : Bool
deriving Repr, DecidableEq

/-- Terminal state of one countdown run. -/
inductive Outcome
  | executed
  | cancelled
deriving Repr, DecidableEq

/-- Go `CancelShutdown` from sentry.go: under the lock, if a countdown is
pending, reset the pending flag and the grace count and report `true`;
otherwise report `false` and change nothing. -/
def CancelShutdown (s : SentryState) : SentryState × Bool :=
  if s.shutdownPending then
    ({ s with shutdownPending := false, graceCount := 0 }, true)
  else
    (s, false)

/-- Trace of one `triggerShutdownWithCountdown` run: final state, terminal
outcome, whether `executeShutdown` was invoked, the statuses emitted via
`setStatus` during the run, and the value returned by the `CancelShutdown`
call when a cancel request was issued. -/
structure CountdownRun where
  state : SentryState
  outcome : Outcome
  actionInvoked : Bool
  statuses : List SentryStatus
  cancelReturned : Option Bool
deriving Repr, DecidableEq

/-- Go `triggerShutdownWithCountdown` from sentry.go, raced against an optional
local `CancelShutdown` request arriving `cancelAt` seconds after the
countdown starts.  The select loop's beep ticker does not change state and
is omitted.  First-signal-wins: the cancel request beats the
`delay`-second timer iff it arrives strictly before the timer fires; a
request arriving at or after `delay` runs `CancelShutdown` on the
post-timer state. -/
def triggerShutdownWithCountdown (st : SentryState) (delay : Nat)
    (cancelAt : Option Nat) : CountdownRun :=
  let armed := { st with shutdownPending := true }
  match cancelAt with
  | none =>
      ⟨{ armed with shutdownPending := false }, .executed, true, [], none⟩
  | some t =>
      if t < delay then
        let c := CancelShutdown armed
        ⟨{ c.1 with status := .monitoring }, .cancelled, false, [.monitoring], some c.2⟩
      else
        let fin := { armed with shutdownPending := false }
        let c := CancelShutdown fin
        ⟨c.1, .executed, true, [], some c.2⟩

/-! ### Monitor loop (sentry.go `StartMonitor`) -/

/-- The environment-supplied inputs of one polling cycle: the result of
`config.Load()` (`none` = load error), the value `network.GetCurrentSSID()`
returned, the value `network.IsDeviceOnNetwork` returns if it is consulted,
and the arrival time of a local cancel request if a countdown runs this
cycle. -/
structure CycleInput where
  load : Option Settings
  ssid : String
  present : Bool
  cancelAt : Option Nat
deriving Repr, DecidableEq

/-- Observable effects of one polling cycle: resulting state, statuses
emitted through `setStatus` in order, whether `saveState` ran, whether
`executeShutdown` ran, and whether a countdown was started. -/
structure CycleOutput where
  state : SentryState
  statuses : List SentryStatus
  saved : Bool
  actionInvoked : Bool
  countdownRan : Bool
deriving Repr, DecidableEq

/-- One iteration of the `for` loop in `StartMonitor` (sentry.go lines
152-239), with sleeping omitted (it does not change state). -/
def monitorCycle (st : SentryState) (inp : CycleInput) : CycleOutput :=
  match inp.load with
  | none =>
      ⟨st, [], false, false, false⟩
  | some settings =>
      if settings.isPaused then
        ⟨{ st with status := .paused }, [.paused], false, false, false⟩
      else if onHomeNetworkCheck inp.ssid settings.homeSSID then
        if settings.HasDeviceConfigured then
          if inp.present then
            let everSeen := st.phoneEverSeen
            let seen := if !everSeen then true else everSeen
            let st1 := { st with status := .monitoring, graceCount := 0, phoneEverSeen := seen }
            ⟨st1, [.monitoring], !everSeen, false, false⟩
          else if st.phoneEverSeen then
            let g := st.graceCount + 1
            let st1 := { st with status := .gracePeriod, graceCount := g }
            if settings.graceChecks ≤ g then
              let st2 := { st1 with status := .shutdownImminent }
              let cd := triggerShutdownWithCountdown st2 settings.shutdownDelay inp.cancelAt
              ⟨cd.state, [.gracePeriod, .shutdownImminent] ++ cd.statuses, false,
                cd.actionInvoked, true⟩
            else
              ⟨st1, [.gracePeriod], false, false, false⟩
          else
            ⟨{ st with status := .waitingForPhone }, [.waitingForPhone], false, false, false⟩
        else
          ⟨{ st with status := .roaming }, [.roaming], false, false, false⟩
      else
        ⟨{ st with status := .roaming, graceCount := 0 }, [.roaming], false, false, false⟩

/-- Iterate `monitorCycle` over a list of cycle inputs, threading the state. -/
def monitorRun (st : SentryState) : List CycleInput → List CycleOutput
  | [] => []
  | inp :: rest =>
      let out := monitorCycle st inp
      out :: monitorRun out.state rest

/-- Number of `saveState` calls in a run. -/
def countSaves (outs : List CycleOutput) : Nat :=
  (outs.filter fun o => o.saved).length

/-! ### Cycle-classification predicates (used to state the claims) -/

/-- The cycle performs a presence check and finds the device present
(sentry.go lines 181-196 branch). -/
def detectionCycle (inp : CycleInput) : Bool :=
  match inp.load with
  | none => false
  | some s =>
      !s.isPaused && onHomeNetworkCheck inp.ssid s.homeSSID &&
        s.HasDeviceConfigured && inp.present

/-- The cycle starts the shutdown countdown (sentry.go lines 205-218
branch): failed presence check at home with the phone previously seen and
the incremented grace count reaching the threshold. -/
def countdownTriggers (st : SentryState) (inp : CycleInput) : Bool :=
  match inp.load with
  | none => false
  | some s =>
      !s.isPaused && onHomeNetworkCheck inp.ssid s.homeSSID &&
        s.HasDeviceConfigured && !inp.present && st.phoneEverSeen &&
        decide (s.graceChecks ≤ st.graceCount + 1)

/-- A countdown started this cycle is cancelled (the local cancel request
arrives before the timer fires). -/
def cancelWins (inp : CycleInput) : Bool :=
  match inp.load, inp.cancelAt with
  | some s, some t => decide (t < s.shutdownDelay)
  | _, _ => false

/-- Written from the spec sentence for the grace-count claim: the cycles
said to reset `graceCount` to 0 — leaving the home network, a successful
presence check, or a cancellation of a countdown. -/
def specGraceReset (st : SentryState) (inp : CycleInput) : Bool :=
  match inp.load with
  | none => false
  | some s =>
      !s.isPaused &&
        (!onHomeNetworkCheck inp.ssid s.homeSSID ||
          (s.HasDeviceConfigured && inp.present) ||
          (countdownTriggers st inp && cancelWins inp))

/-- Written from the spec sentence for the grace-count claim: the cycles
said to increment `graceCount` — a failed presence check while on the home
network with the phone previously seen (and no cancellation resetting it
afterwards in the same cycle). -/
def specGraceIncrement (st : SentryState) (inp : CycleInput) : Bool :=
  match inp.load with
  | none => false
  | some s =>
      !s.isPaused && onHomeNetworkCheck inp.ssid s.homeSSID &&
        s.HasDeviceConfigured && !inp.present && st.phoneEverSeen &&
        !(countdownTriggers st inp && cancelWins inp)

/-- The cycle enters `WaitingForPhone` per the at-home absent branch with
the phone never seen (sentry.go lines 219-223). -/
def waitingForPhoneCycle (st : SentryState) (inp : CycleInput) : Bool :=
  match inp.load with
  | none => false
  | some s =>
      !s.isPaused && onHomeNetworkCheck inp.ssid s.homeSSID &&
        s.HasDeviceConfigured && !inp.present && !st.phoneEverSeen

/-! ### Concrete inputs used by scenario theorems and witnesses -/

/-- A settings value with home network configured, a MAC device, grace
threshold 3, countdown delay 10, protection enabled. -/
def demoSettings3 : Settings :=
  ⟨"home", "", "aa-bb-cc-dd-ee-ff", DetectionType.mac, false, 3, 10, false⟩

/-- A polling cycle on the home network with the device absent. -/
def demoAbsent : CycleInput :=
  ⟨some demoSettings3, "home", false, none⟩

/-- A polling cycle on the home network with the device present. -/
def demoPresent : CycleInput :=
  ⟨some demoSettings3, "home", true, none⟩

/-- A state that has already seen the phone, at rest. -/
def demoStart : SentryState :=
  ⟨SentryStatus.monitoring, 0, true, false⟩

/-- A fresh state that has never seen the phone. -/
def demoStartUnseen : SentryState :=
  ⟨SentryStatus.roaming, 0, false, false⟩

/-- A retry operation failing on attempts 1 and 2 and succeeding on
attempt 3 with value `10 * n`. -/
def retryDemoOp (n : Nat) : Nat × Option Unit :=
  (10 * n, if n < 3 then some () else none)

/-- A retry operation that always fails. -/
def retryDemoFail (n : Nat) : Nat × Option Unit :=
  (7 * n, some ())

/-- A settings value identical to `demoSettings3` except grace threshold 1
and a required confirmation PIN. -/
def demoSettingsPIN : Settings :=
  ⟨"home", "", "aa-bb-cc-dd-ee-ff", DetectionType.mac, false, 1, 10, true⟩

end HomeSentry

namespace HomeSentry

/-! ## Theorems -/

/-- Claim C2, code evaluation at the failing situation: the countdown
actually present in src/pkg/sentry/sentry.go (lines 241-286) has no
remote-cancel branch — its select waits only on the beep ticker, the
shutdown timer and the local cancel channel, and
`ntfy.StartShutdownCancelListener` is never called.  Hence a countdown run
ends `Cancelled` iff the local cancel request arrives before the timer
fires, and in every other run — in particular one during which a remote
cancel command is published — the protective action is invoked. -/
theorem countdown_local_cancel_only (st : SentryState) (D : Nat)
    (c : Option Nat) :
    ((triggerShutdownWithCountdown st D c).outcome = Outcome.cancelled ↔
      (∃ t, c = some t ∧ t < D)) ∧
    ((triggerShutdownWithCountdown st D c).outcome = Outcome.cancelled ∨
      (triggerShutdownWithCountdown st D c).actionInvoked = true) := by
  rcases c with _ | t
  · constructor
    · simp [triggerShutdownWithCountdown]
    · exact Or.inr rfl
  · by_cases h : t < D
    · constructor
      · simp [triggerShutdownWithCountdown, CancelShutdown, h]
      · left
        simp [triggerShutdownWithCountdown, CancelShutdown, h]
    · constructor
      · simp [triggerShutdownWithCountdown, CancelShutdown, h]
      · right
        simp [triggerShutdownWithCountdown, CancelShutdown, h]

/-- Claim C9, code evaluation at the failing input: the timer-expiry path
present in src/pkg/sentry/sentry.go (lines 272-278) clears
`shutdownPending` and invokes the protective action in the same step, with
no PIN grace window and no intervening status: the countdown's timer run
emits nothing between marking the flag and the action, the whole polling
cycle is insensitive to `requirePIN` (neither `RequirePIN` nor `VerifyPIN`
is ever consulted), and at the concrete failing input — settings with
`requirePIN = true`, threshold reached, countdown expiring — the action is
invoked directly. -/
theorem timer_expiry_no_pin_window :
    (∀ (st : SentryState) (D : Nat),
        (triggerShutdownWithCountdown st D none).state.shutdownPending = false ∧
        (triggerShutdownWithCountdown st D none).actionInvoked = true ∧
        (triggerShutdownWithCountdown st D none).outcome = Outcome.executed ∧
        (triggerShutdownWithCountdown st D none).statuses = []) ∧
    (∀ (st : SentryState) (s : Settings) (ssid : String) (present : Bool)
        (c : Option Nat),
        monitorCycle st ⟨some { s with requirePIN := true }, ssid, present, c⟩ =
          monitorCycle st ⟨some { s with requirePIN := false }, ssid, present, c⟩) ∧
    ((monitorCycle demoStart ⟨some demoSettingsPIN, "home", false, none⟩).actionInvoked
        = true ∧
      (monitorCycle demoStart ⟨some demoSettingsPIN, "home", false, none⟩).statuses =
        [SentryStatus.gracePeriod, SentryStatus.shutdownImminent] ∧
      (monitorCycle demoStart
          ⟨some demoSettingsPIN, "home", false, none⟩).state.shutdownPending = false) := by
  refine ⟨fun st D => ⟨rfl, rfl, rfl, rfl⟩, fun st s ssid present c => rfl,
    by decide, by decide, by decide⟩

/-- Claim C10: with `maxAttempts ≤ 0` the retry executor performs zero
invocations of the operation and returns the zero value of the result type
with a nil error — indistinguishable from a success. -/
theorem retry_nonpositive_attempts_no_op {A E : Type} (config : RetryConfig)
    (f : Nat → A × Option E) (zero : A) (h : config.maxAttempts ≤ 0) :
    RetryWithResult config f zero = ⟨zero, none, 0, []⟩ := by
  unfold RetryWithResult
  rw [Int.toNat_of_nonpos h, retryFrom]

/-- Witness: a zero-attempt config with an always-failing operation still
reports a nil error and zero invocations. -/
theorem retry_nonpositive_attempts_no_op_witness :
    RetryWithResult ⟨0, 500, 2⟩ retryDemoFail 0 = ⟨0, none, 0, []⟩ :=
  retry_nonpositive_attempts_no_op ⟨0, 500, 2⟩ retryDemoFail 0 (by decide)

/-- Claim C5 counterexample: the sentinel `Unknown` returned after
exhausted retries compares equal to a configured home network literally
named `Unknown`, so the monitor's at-home test (plain equality, sentry.go
line 177) treats the machine as on the home network; moreover the code has
no non-emptiness guard, so an empty current name matches an empty
configured name, where the claimed formula says the machine is not at
home. -/
theorem sentinel_matches_home_counterexample :
    GetCurrentSSID (fun _ => "Disconnected") = "Unknown" ∧
    onHomeNetworkCheck (GetCurrentSSID (fun _ => "Disconnected")) "Unknown" = true ∧
    onHomeNetworkCheck "" "" = true ∧
    specOnHomeNetwork "" "" = false := by
  refine ⟨rfl, rfl, rfl, rfl⟩

/-- Claim C5 amended: the monitor's at-home test is plain string equality
with no non-emptiness requirement, and the network-name query returns the
sentinel `Unknown` after exhausted retries (a value a configured home
network name can coincide with). -/
theorem onHome_plain_equality :
    (∀ ssid home : String, onHomeNetworkCheck ssid home = true ↔ ssid = home) ∧
    GetCurrentSSID (fun _ => "Disconnected") = "Unknown" ∧
    GetCurrentSSID (fun _ => "MyNet") = "MyNet" := by
  refine ⟨?_, rfl, rfl⟩
  intro ssid home
  simp [onHomeNetworkCheck]

/-! ### Helper lemmas about single countdown runs and polling cycles -/

theorem countdown_phoneEverSeen (st : SentryState) (D : Nat) (c : Option Nat) :
    (triggerShutdownWithCountdown st D c).state.phoneEverSeen = st.phoneEverSeen := by
  rcases c with _ | t
  · rfl
  · by_cases h : t < D <;> simp [triggerShutdownWithCountdown, CancelShutdown, h]

theorem countdown_graceCount (st : SentryState) (D t : Nat) :
    (triggerShutdownWithCountdown st D (some t)).state.graceCount =
      (if t < D then 0 else st.graceCount) := by
  by_cases h : t < D <;> simp [triggerShutdownWithCountdown, CancelShutdown, h]

theorem countdown_graceCount_none (st : SentryState) (D : Nat) :
    (triggerShutdownWithCountdown st D none).state.graceCount = st.graceCount := rfl

theorem countdown_statuses (st : SentryState) (D : Nat) (c : Option Nat) :
    (triggerShutdownWithCountdown st D c).statuses = [] ∨
    (triggerShutdownWithCountdown st D c).statuses = [SentryStatus.monitoring] := by
  rcases c with _ | t
  · exact Or.inl rfl
  · by_cases h : t < D <;> simp [triggerShutdownWithCountdown, CancelShutdown, h]

theorem monitorCycle_phoneEverSeen (st : SentryState) (inp : CycleInput) :
    (monitorCycle st inp).state.phoneEverSeen =
      (st.phoneEverSeen || detectionCycle inp) := by
  rcases inp with ⟨load, ssid, present, cancelAt⟩
  cases load with
  | none => simp [monitorCycle, detectionCycle]
  | some s =>
      by_cases hp : s.isPaused = true <;>
        by_cases hh : onHomeNetworkCheck ssid s.homeSSID = true <;>
        by_cases hd : s.HasDeviceConfigured = true <;>
        by_cases hpre : present = true <;>
        by_cases hev : st.phoneEverSeen = true <;>
        simp [monitorCycle, detectionCycle, hp, hh, hd, hpre, hev] <;>
        split_ifs <;>
        simp [countdown_phoneEverSeen, hev]

theorem monitorCycle_saved (st : SentryState) (inp : CycleInput) :
    (monitorCycle st inp).saved = (!st.phoneEverSeen && detectionCycle inp) := by
  rcases inp with ⟨load, ssid, present, cancelAt⟩
  cases load with
  | none => simp [monitorCycle, detectionCycle]
  | some s =>
      by_cases hp : s.isPaused = true <;>
        by_cases hh : onHomeNetworkCheck ssid s.homeSSID = true <;>
        by_cases hd : s.HasDeviceConfigured = true <;>
        by_cases hpre : present = true <;>
        by_cases hev : st.phoneEverSeen = true <;>
        simp [monitorCycle, detectionCycle, hp, hh, hd, hpre, hev] <;>
        split_ifs <;>
        rfl

theorem waitingForPhone_not_in_countdown (st : SentryState) (D : Nat)
    (c : Option Nat) :
    SentryStatus.waitingForPhone ∉ (triggerShutdownWithCountdown st D c).statuses := by
  rcases c with _ | t
  · simp [triggerShutdownWithCountdown]
  · by_cases h : t < D <;> simp [triggerShutdownWithCountdown, CancelShutdown, h]

theorem monitorCycle_wfp (st : SentryState) (inp : CycleInput) :
    (SentryStatus.waitingForPhone ∈ (monitorCycle st inp).statuses) ↔
      waitingForPhoneCycle st inp = true := by
  rcases inp with ⟨load, ssid, present, cancelAt⟩
  cases load with
  | none => simp [monitorCycle, waitingForPhoneCycle]
  | some s =>
      by_cases hp : s.isPaused = true <;>
        by_cases hh : onHomeNetworkCheck ssid s.homeSSID = true <;>
        by_cases hd : s.HasDeviceConfigured = true <;>
        by_cases hpre : present = true <;>
        by_cases hev : st.phoneEverSeen = true <;>
        simp [monitorCycle, waitingForPhoneCycle, hp, hh, hd, hpre, hev] <;>
        split_ifs <;>
        simp [waitingForPhone_not_in_countdown]

theorem waitingForPhoneCycle_everSeen (st : SentryState) (inp : CycleInput)
    (h : st.phoneEverSeen = true) : waitingForPhoneCycle st inp = false := by
  rcases inp with ⟨load, ssid, p, c⟩
  cases load <;> simp [waitingForPhoneCycle, h]

theorem monitorRun_cons (st : SentryState) (inp : CycleInput)
    (rest : List CycleInput) :
    monitorRun st (inp :: rest) =
      monitorCycle st inp :: monitorRun (monitorCycle st inp).state rest := rfl

theorem countSaves_cons (o : CycleOutput) (l : List CycleOutput) :
    countSaves (o :: l) = (if o.saved then 1 else 0) + countSaves l := by
  by_cases h : o.saved = true <;> simp [countSaves, List.filter_cons, h, Nat.add_comm]

theorem countSaves_run (inps : List CycleInput) :
    ∀ st : SentryState,
      countSaves (monitorRun st inps) =
        (if st.phoneEverSeen then 0
          else if inps.any detectionCycle then 1 else 0) := by
  induction inps with
  | nil => intro st; simp [monitorRun, countSaves]
  | cons inp rest ih =>
      intro st
      rw [monitorRun_cons, countSaves_cons, ih, monitorCycle_saved,
        monitorCycle_phoneEverSeen]
      by_cases hev : st.phoneEverSeen = true <;>
        by_cases hdet : detectionCycle inp = true <;>
        simp [hev, hdet]

theorem monitorRun_no_wfp (inps : List CycleInput) :
    ∀ st : SentryState, st.phoneEverSeen = true →
      ∀ o ∈ monitorRun st inps, SentryStatus.waitingForPhone ∉ o.statuses := by
  induction inps with
  | nil =>
      intro st _ o ho
      simp [monitorRun] at ho
  | cons inp rest ih =>
      intro st h o ho
      rw [monitorRun_cons] at ho
      rcases List.mem_cons.mp ho with rfl | ho
      · intro hmem
        have := (monitorCycle_wfp st inp).mp hmem
        rw [waitingForPhoneCycle_everSeen st inp h] at this
        exact Bool.false_ne_true this
      · refine ih _ ?_ o ho
        rw [monitorCycle_phoneEverSeen, h]
        rfl

/-- Claim C4: over every polling cycle, `graceCount` becomes 0 exactly on
the cycles classified by `specGraceReset` (leaving the home network, a
successful presence check, or a cancellation of a countdown), is
incremented exactly on those classified by `specGraceIncrement` (a failed
presence check at home with the phone previously seen and no cancellation),
and is unchanged by every other cycle. -/
theorem graceCount_transitions (st : SentryState) (inp : CycleInput) :
    (monitorCycle st inp).state.graceCount =
      (if specGraceReset st inp = true then 0
        else if specGraceIncrement st inp = true then st.graceCount + 1
        else st.graceCount) := by
  rcases inp with ⟨load, ssid, present, cancelAt⟩
  cases load with
  | none => simp [monitorCycle, specGraceReset, specGraceIncrement]
  | some s =>
      by_cases hp : s.isPaused = true <;>
        by_cases hh : onHomeNetworkCheck ssid s.homeSSID = true <;>
        by_cases hd : s.HasDeviceConfigured = true <;>
        by_cases hpre : present = true <;>
        by_cases hev : st.phoneEverSeen = true <;>
        by_cases hth : s.graceChecks ≤ st.graceCount + 1 <;>
        simp [monitorCycle, specGraceReset, specGraceIncrement, countdownTriggers,
          cancelWins, hp, hh, hd, hpre, hev, hth] <;>
        rcases cancelAt with _ | t <;>
        simp [countdown_graceCount, countdown_graceCount_none, cancelWins] <;>
        split_ifs <;>
        simp_all

/-- Claim C3: the shutdown countdown starts on a polling cycle iff a failed
presence check on the home network with the phone previously seen, the
protection not paused, brings `graceCount` up to the configured threshold
(for every threshold value); and with threshold 3, three consecutive
absent checks at home yield the per-check status sequence GracePeriod
(count 1), GracePeriod (count 2), ShutdownImminent with the countdown
starting on the third check. -/
theorem escalation_iff_threshold :
    (∀ (st : SentryState) (inp : CycleInput),
        (monitorCycle st inp).countdownRan = countdownTriggers st inp) ∧
    (monitorRun demoStart [demoAbsent, demoAbsent, demoAbsent]).map
        (fun o => o.state.status) =
      [SentryStatus.gracePeriod, SentryStatus.gracePeriod,
        SentryStatus.shutdownImminent] ∧
    (monitorRun demoStart [demoAbsent, demoAbsent, demoAbsent]).map
        (fun o => o.state.graceCount) = [1, 2, 3] ∧
    (monitorRun demoStart [demoAbsent, demoAbsent, demoAbsent]).map
        (fun o => o.countdownRan) = [false, false, true] := by
  refine ⟨?_, by decide, by decide, by decide⟩
  intro st inp
  rcases inp with ⟨load, ssid, present, cancelAt⟩
  cases load with
  | none => simp [monitorCycle, countdownTriggers]
  | some s =>
      by_cases hp : s.isPaused = true <;>
        by_cases hh : onHomeNetworkCheck ssid s.homeSSID = true <;>
        by_cases hd : s.HasDeviceConfigured = true <;>
        by_cases hpre : present = true <;>
        by_cases hev : st.phoneEverSeen = true <;>
        by_cases hth : s.graceChecks ≤ st.graceCount + 1 <;>
        simp [monitorCycle, countdownTriggers, hp, hh, hd, hpre, hev, hth]

/-- Claim C6: a polling cycle emits `WaitingForPhone` iff the presence
check runs at home (loaded config, not paused, on the home network, device
configured), the device is absent and the phone has never been seen; and
once `phoneEverSeen` is true, no later cycle of the run ever emits
`WaitingForPhone` again. -/
theorem waitingForPhone_iff_and_sticky :
    (∀ (st : SentryState) (inp : CycleInput),
        (SentryStatus.waitingForPhone ∈ (monitorCycle st inp).statuses) ↔
          waitingForPhoneCycle st inp = true) ∧
    (∀ (st : SentryState) (inps : List CycleInput), st.phoneEverSeen = true →
        ∀ o ∈ monitorRun st inps,
          SentryStatus.waitingForPhone ∉ o.statuses) :=
  ⟨monitorCycle_wfp, fun st inps h => monitorRun_no_wfp inps st h⟩

/-- Witness for the sticky part: a state that has seen the phone never
emits `WaitingForPhone`, here on an absent check at home. -/
theorem waitingForPhone_sticky_witness :
    SentryStatus.waitingForPhone ∉ (monitorCycle demoStart demoAbsent).statuses :=
  waitingForPhone_iff_and_sticky.2 demoStart [demoAbsent] rfl
    (monitorCycle demoStart demoAbsent) (by simp [monitorRun])

/-- Claim C8: a successful presence check at home sets status `Monitoring`
and `graceCount = 0`, leaves `phoneEverSeen` true, and performs the durable
state write exactly when `phoneEverSeen` was still false; over a whole run
the durable write happens exactly once — on the first-ever detection and on
no later successful detection. -/
theorem presence_success_persist_once :
    (∀ (st : SentryState) (inp : CycleInput), detectionCycle inp = true →
        (monitorCycle st inp).state.status = SentryStatus.monitoring ∧
        (monitorCycle st inp).state.graceCount = 0 ∧
        (monitorCycle st inp).state.phoneEverSeen = true ∧
        (monitorCycle st inp).saved = !st.phoneEverSeen) ∧
    (∀ (st : SentryState) (inps : List CycleInput),
        countSaves (monitorRun st inps) =
          (if st.phoneEverSeen then 0
            else if inps.any detectionCycle then 1 else 0)) := by
  constructor
  · intro st inp hdet
    rcases inp with ⟨load, ssid, present, cancelAt⟩
    cases load with
    | none => simp [detectionCycle] at hdet
    | some s =>
        simp [detectionCycle] at hdet
        obtain ⟨⟨⟨hp, hh⟩, hd⟩, hpre⟩ := hdet
        by_cases hev : st.phoneEverSeen = true <;>
          simp [monitorCycle, hp, hh, hd, hpre, hev]
  · exact fun st inps => countSaves_run inps st

/-- Witness: a never-seen state detecting the phone enters `Monitoring`,
persists the flag, and two consecutive successful detections persist it
exactly once. -/
theorem presence_success_persist_once_witness :
    ((monitorCycle demoStartUnseen demoPresent).state.status =
        SentryStatus.monitoring ∧
      (monitorCycle demoStartUnseen demoPresent).state.graceCount = 0 ∧
      (monitorCycle demoStartUnseen demoPresent).state.phoneEverSeen = true ∧
      (monitorCycle demoStartUnseen demoPresent).saved =
        !demoStartUnseen.phoneEverSeen) ∧
    countSaves (monitorRun demoStartUnseen [demoPresent, demoPresent]) = 1 := by
  constructor
  · exact presence_success_persist_once.1 demoStartUnseen demoPresent (by decide)
  · have h := presence_success_persist_once.2 demoStartUnseen [demoPresent, demoPresent]
    rw [h]
    decide

/-! ### Helper lemmas for the retry executor -/

section RetryLemmas

variable {A E : Type} (f : Nat → A × Option E) (m : ℚ) (z : A)

theorem retryFrom_zero (a : Nat) (d : ℚ) :
    retryFrom f m z a 0 d = ⟨z, none, 0, []⟩ := rfl

theorem retryFrom_one (a : Nat) (d : ℚ) :
    retryFrom f m z a 1 d = ⟨(f a).1, (f a).2, 1, []⟩ := rfl

theorem retryFrom_step_ok (a k : Nat) (d : ℚ) (h : (f a).2 = none) :
    retryFrom f m z a (k + 2) d = ⟨(f a).1, none, 1, []⟩ := by
  simp only [retryFrom, h]

theorem retryFrom_step_err (a k : Nat) (d : ℚ) (e : E) (h : (f a).2 = some e) :
    retryFrom f m z a (k + 2) d =
      ⟨(retryFrom f m z (a + 1) (k + 1) (d * m)).result,
        (retryFrom f m z (a + 1) (k + 1) (d * m)).error,
        (retryFrom f m z (a + 1) (k + 1) (d * m)).invocations + 1,
        d :: (retryFrom f m z (a + 1) (k + 1) (d * m)).sleeps⟩ := by
  simp only [retryFrom, h]

theorem retryFrom_inv_le :
    ∀ (n a : Nat) (d : ℚ), (retryFrom f m z a n d).invocations ≤ n := by
  intro n
  induction n using Nat.strong_induction_on with
  | _ n ih =>
      intro a d
      rcases n with _ | _ | k
      · simp [retryFrom_zero]
      · simp [retryFrom_one]
      · cases hfa : (f a).2 with
        | none => simp [retryFrom_step_ok f m z a k d hfa]
        | some e =>
            rw [retryFrom_step_err f m z a k d e hfa]
            have h1 := ih (k + 1) (by omega) (a + 1) (d * m)
            dsimp only
            omega

theorem retryFrom_inv_pos (n a : Nat) (d : ℚ) (hn : 1 ≤ n) :
    1 ≤ (retryFrom f m z a n d).invocations := by
  rcases n with _ | _ | k
  · omega
  · simp [retryFrom_one]
  · cases hfa : (f a).2 with
    | none => simp [retryFrom_step_ok f m z a k d hfa]
    | some e =>
        rw [retryFrom_step_err f m z a k d e hfa]
        dsimp only
        omega

theorem retryFrom_sleeps_len :
    ∀ (n a : Nat) (d : ℚ),
      (retryFrom f m z a n d).sleeps.length =
        (retryFrom f m z a n d).invocations - 1 := by
  intro n
  induction n using Nat.strong_induction_on with
  | _ n ih =>
      intro a d
      rcases n with _ | _ | k
      · simp [retryFrom_zero]
      · simp [retryFrom_one]
      · cases hfa : (f a).2 with
        | none => simp [retryFrom_step_ok f m z a k d hfa]
        | some e =>
            rw [retryFrom_step_err f m z a k d e hfa]
            have h1 := ih (k + 1) (by omega) (a + 1) (d * m)
            have h2 := retryFrom_inv_pos f m z (k + 1) (a + 1) (d * m) (by omega)
            dsimp only
            simp only [List.length_cons]
            omega

theorem retryFrom_sleeps_form :
    ∀ (n a : Nat) (d : ℚ),
      (retryFrom f m z a n d).sleeps =
        (List.range ((retryFrom f m z a n d).invocations - 1)).map
          (fun i => d * m ^ i) := by
  intro n
  induction n using Nat.strong_induction_on with
  | _ n ih =>
      intro a d
      rcases n with _ | _ | k
      · simp [retryFrom_zero]
      · simp [retryFrom_one]
      · cases hfa : (f a).2 with
        | none => simp [retryFrom_step_ok f m z a k d hfa]
        | some e =>
            rw [retryFrom_step_err f m z a k d e hfa]
            have h1 := ih (k + 1) (by omega) (a + 1) (d * m)
            have h2 := retryFrom_inv_pos f m z (k + 1) (a + 1) (d * m) (by omega)
            dsimp only
            rw [h1]
            obtain ⟨q, hq⟩ : ∃ q, (retryFrom f m z (a + 1) (k + 1) (d * m)).invocations = q + 1 :=
              ⟨(retryFrom f m z (a + 1) (k + 1) (d * m)).invocations - 1, by omega⟩
            rw [hq]
            simp only [Nat.add_sub_cancel, List.range_succ_eq_map, List.map_cons,
              List.map_map, pow_zero, mul_one, Function.comp, List.cons.injEq]
            refine ⟨trivial, ?_⟩
            congr 1
            funext i
            simp only [Function.comp_apply, Nat.succ_eq_add_one]
            rw [pow_succ]
            ring

theorem retryFrom_success :
    ∀ (n a k : Nat) (d : ℚ), a ≤ k → k < a + n → (f k).2 = none →
      (∀ j, a ≤ j → j < k → (f j).2 ≠ none) →
      (retryFrom f m z a n d).result = (f k).1 ∧
      (retryFrom f m z a n d).error = none ∧
      (retryFrom f m z a n d).invocations = k - a + 1 := by
  intro n
  induction n using Nat.strong_induction_on with
  | _ n ih =>
      intro a k d hak hkn hok hfail
      rcases n with _ | _ | t
      · omega
      · have hka : k = a := by omega
        subst hka
        rw [retryFrom_one]
        exact ⟨rfl, hok, by dsimp only; omega⟩
      · by_cases hka : k = a
        · subst hka
          rw [retryFrom_step_ok f m z k t d hok]
          exact ⟨rfl, rfl, by dsimp only; omega⟩
        · have hfa : (f a).2 ≠ none := hfail a (le_refl a) (by omega)
          cases hfa2 : (f a).2 with
          | none => exact absurd hfa2 hfa
          | some e =>
              rw [retryFrom_step_err f m z a t d e hfa2]
              have hrec := ih (t + 1) (by omega) (a + 1) k (d * m) (by omega) (by omega)
                hok (fun j h1 h2 => hfail j (by omega) h2)
              refine ⟨hrec.1, hrec.2.1, ?_⟩
              dsimp only
              rw [hrec.2.2]
              omega

theorem retryFrom_allFail :
    ∀ (n a : Nat) (d : ℚ), 1 ≤ n →
      (∀ j, a ≤ j → j < a + n → (f j).2 ≠ none) →
      (retryFrom f m z a n d).result = (f (a + n - 1)).1 ∧
      (retryFrom f m z a n d).error = (f (a + n - 1)).2 ∧
      (retryFrom f m z a n d).invocations = n := by
  intro n
  induction n using Nat.strong_induction_on with
  | _ n ih =>
      intro a d hn hfail
      rcases n with _ | _ | t
      · omega
      · rw [retryFrom_one]
        have hix : a + 1 - 1 = a := by omega
        rw [hix]
        exact ⟨rfl, rfl, rfl⟩
      · have hfa : (f a).2 ≠ none := hfail a (le_refl a) (by omega)
        cases hfa2 : (f a).2 with
        | none => exact absurd hfa2 hfa
        | some e =>
            rw [retryFrom_step_err f m z a t d e hfa2]
            have hrec := ih (t + 1) (by omega) (a + 1) (d * m) (by omega)
              (fun j h1 h2 => hfail j (by omega) (by omega))
            have hix : a + 1 + (t + 1) - 1 = a + (t + 2) - 1 := by omega
            rw [hix] at hrec
            refine ⟨hrec.1, hrec.2.1, ?_⟩
            dsimp only
            rw [hrec.2.2]

end RetryLemmas

/-- Claim C7: with `maxAttempts ≥ 1` and `backoffMultiplier ≥ 1` (and a
nonnegative initial delay), the retry executor invokes the operation at
most `maxAttempts` times, sleeps only between attempts (exactly
`invocations - 1` sleeps, never one after the last attempt), multiplies the
delay by the multiplier after each sleep (the i-th sleep is
`delay * multiplier ^ i`, so the sleeps are nondecreasing), returns the
first success immediately, returns the last failure when every attempt
fails, and in particular for `maxAttempts = 3` with failures on attempts 1
and 2 and success on attempt 3 it returns the success value with exactly
the two sleeps `[delay, delay * multiplier]`, the second at least the
first. -/
theorem retryWithResult_contract {A E : Type} (cfg : RetryConfig)
    (f : Nat → A × Option E) (z : A)
    (hma : 1 ≤ cfg.maxAttempts) (hm : 1 ≤ cfg.multiplier) (hd : 0 ≤ cfg.delay) :
    (RetryWithResult cfg f z).invocations ≤ cfg.maxAttempts.toNat ∧
    (RetryWithResult cfg f z).sleeps.length = (RetryWithResult cfg f z).invocations - 1 ∧
    (RetryWithResult cfg f z).sleeps =
      (List.range ((RetryWithResult cfg f z).invocations - 1)).map
        (fun i => cfg.delay * cfg.multiplier ^ i) ∧
    (RetryWithResult cfg f z).sleeps.Pairwise (· ≤ ·) ∧
    (∀ k, 1 ≤ k → k ≤ cfg.maxAttempts.toNat → (f k).2 = none →
        (∀ j, 1 ≤ j → j < k → (f j).2 ≠ none) →
        (RetryWithResult cfg f z).result = (f k).1 ∧
        (RetryWithResult cfg f z).error = none ∧
        (RetryWithResult cfg f z).invocations = k) ∧
    ((∀ j, 1 ≤ j → j ≤ cfg.maxAttempts.toNat → (f j).2 ≠ none) →
        (RetryWithResult cfg f z).result = (f cfg.maxAttempts.toNat).1 ∧
        (RetryWithResult cfg f z).error = (f cfg.maxAttempts.toNat).2 ∧
        (RetryWithResult cfg f z).invocations = cfg.maxAttempts.toNat) ∧
    (cfg.maxAttempts = 3 → (f 1).2 ≠ none → (f 2).2 ≠ none → (f 3).2 = none →
        (RetryWithResult cfg f z).result = (f 3).1 ∧
        (RetryWithResult cfg f z).error = none ∧
        (RetryWithResult cfg f z).sleeps = [cfg.delay, cfg.delay * cfg.multiplier] ∧
        cfg.delay ≤ cfg.delay * cfg.multiplier) := by
  have hN : 1 ≤ cfg.maxAttempts.toNat := by omega
  unfold RetryWithResult
  refine ⟨?_, ?_, ?_, ?_, ?_, ?_, ?_⟩
  · exact retryFrom_inv_le f cfg.multiplier z cfg.maxAttempts.toNat 1 cfg.delay
  · exact retryFrom_sleeps_len f cfg.multiplier z cfg.maxAttempts.toNat 1 cfg.delay
  · exact retryFrom_sleeps_form f cfg.multiplier z cfg.maxAttempts.toNat 1 cfg.delay
  · rw [retryFrom_sleeps_form f cfg.multiplier z cfg.maxAttempts.toNat 1 cfg.delay]
    refine List.Pairwise.map _ ?_ (List.pairwise_lt_range _)
    intro i j hij
    gcongr
    exact hm
  · intro k hk1 hkN hok hfail
    have h := retryFrom_success f cfg.multiplier z cfg.maxAttempts.toNat 1 k cfg.delay
      (by omega) (by omega) hok (fun j h1 h2 => hfail j h1 h2)
    exact ⟨h.1, h.2.1, by omega⟩
  · intro hfail
    have h := retryFrom_allFail f cfg.multiplier z cfg.maxAttempts.toNat 1 cfg.delay hN
      (fun j h1 h2 => hfail j h1 (by omega))
    have hix : 1 + cfg.maxAttempts.toNat - 1 = cfg.maxAttempts.toNat := by omega
    rw [hix] at h
    exact h
  · intro h3 hf1 hf2 hok
    have hN3 : cfg.maxAttempts.toNat = 3 := by omega
    have hsucc := retryFrom_success f cfg.multiplier z cfg.maxAttempts.toNat 1 3 cfg.delay
      (by omega) (by omega) hok
      (by
        intro j hj1 hj2
        interval_cases j
        · exact hf1
        · exact hf2)
    refine ⟨hsucc.1, hsucc.2.1, ?_, ?_⟩
    · rw [retryFrom_sleeps_form f cfg.multiplier z cfg.maxAttempts.toNat 1 cfg.delay]
      have h2 : (retryFrom f cfg.multiplier z 1 cfg.maxAttempts.toNat cfg.delay).invocations - 1
          = 2 := by
        have := hsucc.2.2
        omega
      rw [h2]
      simp [List.range_succ, pow_succ]
    · calc cfg.delay = cfg.delay * 1 := by ring
        _ ≤ cfg.delay * cfg.multiplier := by gcongr

/-- Witness: three attempts with failures on 1 and 2 and success on 3
return the success value `30` after exactly the two sleeps `[5, 10]`. -/
theorem retryWithResult_contract_witness :
    (RetryWithResult ⟨3, 5, 2⟩ retryDemoOp 0).result = 30 ∧
    (RetryWithResult ⟨3, 5, 2⟩ retryDemoOp 0).error = none ∧
    (RetryWithResult ⟨3, 5, 2⟩ retryDemoOp 0).sleeps = [5, 10] ∧
    ((5 : ℚ) ≤ 10) := by
  have h := retryWithResult_contract ⟨3, 5, 2⟩ retryDemoOp 0 (by decide) (by norm_num)
    (by norm_num)
  have hs := h.2.2.2.2.2.2 rfl (by decide) (by decide) (by decide)
  refine ⟨?_, hs.2.1, ?_, by norm_num⟩
  · rw [hs.1]
    rfl
  · rw [hs.2.2.1]
    norm_num

end HomeSentry
